import Mathlib

/-!
Shallow embedding of `src/models/XGBoostModel.py` from the
`football_trading` repository.

The repository's own code (the `XGBoostModel` class) is translated into
Lean definitions below.  External collaborators that the class merely
calls into (the xgboost library's classifier, sklearn's metric functions
and `KFold`, pandas sampling, the SQL helpers, and the utility functions
`get_manager_features`, `get_features`, `get_profit`, `get_manager`,
`fetch_name`) are modelled either concretely where their behaviour is
fully documented (the two sklearn metrics, `KFold` without shuffling) or
as explicit function parameters (dependency injection) where the class
treats them as opaque oracles.  The sqlite table `historic_predictions`
is modelled as an explicit list of rows threaded through `train_model`.
-/

namespace FootballTrading

/-! ## sklearn metric functions

`balanced_accuracy_score(y_true, y_pred)` is the mean of the per-class
recalls over the classes that occur in `y_true`;
`accuracy_score(y_true, y_pred)` is the fraction of positions where the
prediction equals the actual.  Class labels are encoded as naturals
(xgboost encodes the sorted string labels `A < D < H` as `0 < 1 < 2`). -/

/-- Recall of class `c` over a list of `(actual, predicted)` pairs. -/
def classRecall (pairs : List (Nat × Nat)) (c : Nat) : ℚ :=
  let inC := pairs.filter (fun p => p.1 = c)
  if inC.length = 0 then 0
  else ((inC.filter (fun p => p.2 = p.1)).length : ℚ) / (inC.length : ℚ)

/-- sklearn's `balanced_accuracy_score`: mean per-class recall over the
classes present in the actuals. -/
def balanced_accuracy_score (actuals preds : List Nat) : ℚ :=
  let pairs := actuals.zip preds
  let classes := actuals.dedup
  if classes.length = 0 then 0
  else (classes.map (classRecall pairs)).sum / (classes.length : ℚ)

/-- sklearn's `accuracy_score`: fraction of correct predictions. -/
def accuracy_score (actuals preds : List Nat) : ℚ :=
  if actuals.length = 0 then 0
  else (((actuals.zip preds).filter (fun p => p.1 = p.2)).length : ℚ)
    / (actuals.length : ℚ)

/-! ## Python dict operations

`self.performance` is a Python dict from metric name to score; we model
it as an association list looked up front-to-back (Python dicts have
unique keys, which first-match lookup generalises). -/

/-- Python `d.get(k)`: first value stored under key `k`. -/
def dictGet (d : List (String × ℚ)) (k : String) : Option ℚ :=
  match d with
  | [] => none
  | p :: rest => if p.1 = k then some p.2 else dictGet rest k

/-- Python `d[k] = v`: replace the value under `k`, or append the pair if the
key is absent. -/
def setKey (d : List (String × ℚ)) (k : String) (v : ℚ) : List (String × ℚ) :=
  if d.any (fun p => p.1 = k) then
    d.map (fun p => if p.1 = k then (k, v) else p)
  else d ++ [(k, v)]

theorem dictGet_map_replace (d : List (String × ℚ)) (k : String) (v : ℚ) :
    dictGet (d.map (fun p => if p.1 = k then (k, v) else p)) k
      = (dictGet d k).map (fun _ => v) := by
  induction d with
  | nil => rfl
  | cons p rest ih =>
    by_cases h : p.1 = k
    · simp [dictGet, h]
    · simp [dictGet, h, ih]

theorem dictGet_map_replace_ne (d : List (String × ℚ)) (k k' : String) (v : ℚ)
    (h : k' ≠ k) :
    dictGet (d.map (fun p => if p.1 = k' then (k', v) else p)) k = dictGet d k := by
  induction d with
  | nil => rfl
  | cons p rest ih =>
    by_cases hp : p.1 = k'
    · simp [dictGet, hp, h, Ne.symm h, ih]
    · simp [dictGet, hp, ih]

theorem dictGet_append (d e : List (String × ℚ)) (k : String) :
    dictGet (d ++ e) k = ((dictGet d k).orElse (fun _ => dictGet e k)) := by
  induction d with
  | nil => simp [dictGet]
  | cons p rest ih =>
    by_cases h : p.1 = k
    · simp [dictGet, h]
    · simp [dictGet, h, ih]

theorem dictGet_eq_none_of_not_any (d : List (String × ℚ)) (k : String)
    (h : d.any (fun p => p.1 = k) = false) : dictGet d k = none := by
  induction d with
  | nil => rfl
  | cons p rest ih =>
    simp only [List.any_cons, Bool.or_eq_false_iff] at h
    have hp : ¬ p.1 = k := by
      intro hk; rw [hk] at h; simp at h
    simp [dictGet, hp, ih h.2]

theorem dictGet_isSome_of_any (d : List (String × ℚ)) (k : String)
    (h : d.any (fun p => p.1 = k) = true) : ∃ w, dictGet d k = some w := by
  induction d with
  | nil => simp at h
  | cons p rest ih =>
    by_cases hp : p.1 = k
    · exact ⟨p.2, by simp [dictGet, hp]⟩
    · have hr : rest.any (fun p => p.1 = k) = true := by
        simpa [List.any_cons, hp] using h
      obtain ⟨w, hw⟩ := ih hr
      exact ⟨w, by simp [dictGet, hp, hw]⟩

theorem dictGet_setKey_self (d : List (String × ℚ)) (k : String) (v : ℚ) :
    dictGet (setKey d k v) k = some v := by
  unfold setKey
  by_cases h : d.any (fun p => p.1 = k)
  · obtain ⟨w, hw⟩ := dictGet_isSome_of_any d k h
    rw [if_pos h, dictGet_map_replace, hw]
    rfl
  · rw [if_neg h, dictGet_append,
      dictGet_eq_none_of_not_any d k (Bool.eq_false_iff.mpr h)]
    simp [dictGet]

theorem dictGet_setKey_ne (d : List (String × ℚ)) (k k' : String) (v : ℚ)
    (h : k' ≠ k) : dictGet (setKey d k' v) k = dictGet d k := by
  unfold setKey
  by_cases ha : d.any (fun p => p.1 = k')
  · rw [if_pos ha, dictGet_map_replace_ne d k k' v h]
  · rw [if_neg ha, dictGet_append]
    cases he : dictGet d k with
    | some w => rfl
    | none => simp [dictGet, h, he]

/-! ## sklearn `KFold(n_splits=10)` without shuffling

Fold `i` of `n` samples gets the contiguous index block starting at
`i * (n / k) + min i (n % k)` of size `n / k` plus one extra for the
first `n % k` folds; the train indices are the complement.  `KFold`
raises `ValueError` when there are fewer samples than splits. -/

/-- Held-out (test) indices of fold `i` in sklearn `KFold(k)` over `n` rows. -/
def kfoldTestIdx (n k i : Nat) : List Nat :=
  let base := n / k
  let extra := n % k
  let start := i * base + min i extra
  let size := base + (if i < extra then 1 else 0)
  (List.range size).map (fun j => start + j)

/-- Training indices of fold `i`: every row index not held out. -/
def kfoldTrainIdx (n k i : Nat) : List Nat :=
  (List.range n).filter (fun j => !((kfoldTestIdx n k i).contains j))

/-- Pandas `xs.iloc[idxs]`: select rows by position. -/
def selectIdx {α : Type u} (xs : List α) (idxs : List Nat) : List α :=
  idxs.filterMap (fun i => xs.get? i)

/-! ## The `XGBoostModel` state

Mirror of the `self.*` attributes of `XGBoostModel.__init__` that the
methods under verification read or write.  `M` is the (opaque) type of a
fitted xgboost classifier. -/

structure ModelState (M : Type u) where
  /-- Attribute `self.test_mode`. -/
  test_mode : Bool
  /-- Attribute `self.params` (initially `n_estimators = 100`, untuned). -/
  params : List (String × Nat)
  /-- Attribute `self.param_grid` for hyper-parameter tuning. -/
  param_grid : List (String × List Nat)
  /-- Attribute `self.trained_model` (None until a model is stored). -/
  trained_model : Option M
  /-- Attribute `self.performance`: metric name to score. -/
  performance : List (String × ℚ)
  /-- Attribute `self.model_id`. -/
  model_id : String
  /-- Attribute `self.window_length`. -/
  window_length : Nat
  /-- Attribute `self.upload_historic_predictions` (None is falsy). -/
  upload_historic_predictions : Bool
deriving DecidableEq

/-- The attribute values set by `XGBoostModel.__init__` (the fields the
methods below depend on; `model_id` is built from a timestamp hash, so it
stays a parameter). -/
def initState (M : Type u) (test_mode upload : Bool) (model_id : String) :
    ModelState M :=
  { test_mode := test_mode
    params := [("n_estimators", 100)]
    param_grid := [("max_depth", [2, 4, 6]), ("n_estimators", [50, 100, 200])]
    trained_model := none
    performance := []
    model_id := model_id
    window_length := 8
    upload_historic_predictions := upload }

/-! ## `train_model`

`train_model(X, y)` runs 10-fold cross validation; the xgboost library
is injected as `fit` (taking the keyword arguments of the
`XGBClassifier(...)` constructor — the source constructs it as
`xgb.XGBClassifier()`, i.e. with the empty argument list — and the
training rows and labels) and `predictF` (the fitted model's `predict`).
`get_profit` from `src.utils.xgboost` is injected as `getProfit`. -/

structure TrainInput (M : Type u) (ρ : Type v) where
  /-- Library call `xgb.XGBClassifier(**ctorArgs).fit(trainX, trainY)`. -/
  fit : List (String × Nat) → List ρ → List Nat → M
  /-- Library call `model.predict(testX)`. -/
  predictF : M → List ρ → List Nat
  /-- Utility `get_profit(row-with-pred-and-actual)`. -/
  getProfit : ρ → Nat → Nat → ℚ
  /-- The feature matrix `X` (one abstract row per fixture). -/
  X : List ρ
  /-- The label column `y`. -/
  y : List Nat

/-- What one iteration of the fold loop produces. -/
structure FoldResult (M : Type u) (ρ : Type v) where
  model : M
  testRows : List ρ
  preds : List Nat
  actuals : List Nat

/-- The fold loop of `train_model`: for each of the 10 folds, fit a
freshly constructed `xgb.XGBClassifier()` (empty constructor argument
list) on the train split and predict the held-out split. -/
def runFolds {M : Type u} {ρ : Type v} (inp : TrainInput M ρ) :
    List (FoldResult M ρ) :=
  let n := inp.X.length
  (List.range 10).map (fun i =>
    let trainIdx := kfoldTrainIdx n 10 i
    let testIdx := kfoldTestIdx n 10 i
    let m := inp.fit [] (selectIdx inp.X trainIdx) (selectIdx inp.y trainIdx)
    { model := m
      testRows := selectIdx inp.X testIdx
      preds := inp.predictF m (selectIdx inp.X testIdx)
      actuals := selectIdx inp.y testIdx })

/-- One row of the accumulated `model_predictions` DataFrame. -/
structure PredRow (ρ : Type v) where
  row : ρ
  pred : Nat
  actual : Nat
deriving DecidableEq

/-- One row of the `historic_predictions` table (after the `model_id`
and `profit` columns are added). -/
structure LoggedRow (ρ : Type v) where
  row : ρ
  pred : Nat
  actual : Nat
  model_id : String
  profit : ℚ
deriving DecidableEq

/-- The union of all folds' held-out rows with their predictions and
actuals (`model_predictions` after the loop). -/
def modelPredictions {M : Type u} {ρ : Type v} (inp : TrainInput M ρ) :
    List (PredRow ρ) :=
  (runFolds inp).flatMap (fun fr =>
    (fr.testRows.zip (fr.preds.zip fr.actuals)).map
      (fun p => { row := p.1, pred := p.2.1, actual := p.2.2 }))

/-- The actual labels of the union of held-out predictions. -/
def unionActuals {M : Type u} {ρ : Type v} (inp : TrainInput M ρ) : List Nat :=
  (modelPredictions inp).map (fun p => p.actual)

/-- The predicted labels of the union of held-out predictions. -/
def unionPreds {M : Type u} {ρ : Type v} (inp : TrainInput M ρ) : List Nat :=
  (modelPredictions inp).map (fun p => p.pred)

/-- The score the source computes at line 181:
`self.performance_metrics[0](actuals, predictions)`, where `actuals` and
`predictions` are the loop variables left over from the **last** fold. -/
def computedScore {M : Type u} {ρ : Type v} (inp : TrainInput M ρ) : ℚ :=
  match (runFolds inp).getLast? with
  | some lf => balanced_accuracy_score lf.actuals lf.preds
  | none => 0

/-- Read `self.performance.get('balanced_accuracy_score', 0)`: the stored
primary-metric score with baseline 0. -/
def storedScore {M : Type u} (s : ModelState M) : ℚ :=
  (dictGet s.performance "balanced_accuracy_score").getD 0

/-- The `model_predictions` rows after the `model_id` and `profit` columns are
added (lines 193-195). -/
def taggedPredictions {M : Type u} {ρ : Type v} (s : ModelState M)
    (inp : TrainInput M ρ) : List (LoggedRow ρ) :=
  (modelPredictions inp).map (fun p =>
    { row := p.row, pred := p.pred, actual := p.actual
      model_id := s.model_id
      profit := inp.getProfit p.row p.pred p.actual })

/-- Method `XGBoostModel.train_model(X, y)`.  The `historic_predictions` table
is threaded through as `_prevLog` (its contents before the call) and the
returned list (after).  Returns `none` when `KFold` raises (fewer than
10 samples); no attribute is mutated in that case. -/
def train_model {M : Type u} {ρ : Type v} (s : ModelState M)
    (inp : TrainInput M ρ) (_prevLog : List (LoggedRow ρ)) :
    Option (ModelState M × List (LoggedRow ρ)) :=
  if inp.X.length < 10 then none
  else
    match (runFolds inp).getLast? with
    | none => none
    | some lf =>
      -- line 181: score of the *last* fold's loop variables
      let performance := balanced_accuracy_score lf.actuals lf.preds
      -- lines 185-189: keep the (last) fold's model on improvement
      let s1 :=
        if performance > (dictGet s.performance "balanced_accuracy_score").getD 0 then
          { s with
            trained_model := some lf.model
            performance :=
              setKey (setKey s.performance "balanced_accuracy_score"
                  (balanced_accuracy_score lf.actuals lf.preds))
                "accuracy_score" (accuracy_score lf.actuals lf.preds) }
        else s
      -- line 196: "drop table if exists historic_predictions"
      let logAfterDrop : List (LoggedRow ρ) := []
      -- lines 198-200: append the tagged predictions unless in test
      -- mode without the explicit upload override
      let newLog :=
        if (!s.test_mode) || s.upload_historic_predictions then
          logAfterDrop ++ taggedPredictions s inp
        else logAfterDrop
      some (s1, newLog)

/-- Observable effect of one `train_model` call on the object state: the
new state on success, the unchanged state when `KFold` raises. -/
def trainStep {M : Type u} {ρ : Type v} (s : ModelState M)
    (inp : TrainInput M ρ) : ModelState M :=
  match train_model s inp [] with
  | some (s1, _) => s1
  | none => s

/-! ## `get_data`

`get_data(df)` augments the raw fixtures with manager features
(`get_manager_features`, injected as `mgrF`), filters on the fixture-id
exclusion boundaries, in test mode subsamples to 100 rows (`df.sample`,
injected as `pick`), and maps the external feature generator
(`get_features` with its `team_data`, injected as `features`) over the
surviving rows, collecting the target column when present.  Only the
columns the class itself inspects (`fixture_id`, `full_time_result`) are
modelled; everything else lives inside the abstract row consumed by
`features`. -/

structure FixtureRow where
  fixture_id : Nat
  /-- Column `full_time_result`, present only for historical (played) rows. -/
  full_time_result : Option Nat
deriving DecidableEq

/-- Method `XGBoostModel.get_data(df)`: returns the pair `(X, y)`. -/
def get_data {M : Type u} {φ : Type w}
    (mgrF : List FixtureRow → List FixtureRow)
    (pick : List FixtureRow → List FixtureRow)
    (features : FixtureRow → φ)
    (s : ModelState M) (df : List FixtureRow) : List φ × List Nat :=
  let df1 := mgrF df
  -- line 136: drop the first `window_length` and the last game weeks
  let df2 := df1.filter (fun r =>
    decide (s.window_length * 10 < r.fixture_id) && decide (r.fixture_id < 370))
  -- lines 143-144: in test mode subsample 100 rows
  let df3 := if s.test_mode && decide (100 < df2.length) then pick df2 else df2
  (df3.map features, df3.filterMap (fun r => r.full_time_result))

/-! ## `get_info`

`get_info(home_id, away_id, date, season)` resolves both managers
(`get_manager`, injected), asserts that each lookup returned data, and
builds the single pseudo-fixture row, whose `fixture_id` is read from
the `main_fixtures` store (dates are modelled as naturals so that the
SQL `max` is order-comparable). -/

structure ManagerRow where
  start_date : String
deriving DecidableEq, Inhabited

structure MainFixture where
  date : Nat
  fixture_id : Nat
deriving DecidableEq

/-- Query `select max(date) from main_fixtures`. -/
def maxDate (fixtures : List MainFixture) : Nat :=
  (fixtures.map (fun f => f.date)).foldl max 0

/-- Query `select max(fixture_id) from main_fixtures where date = max_date`. -/
def maxFixtureAtMaxDate (fixtures : List MainFixture) : Nat :=
  ((fixtures.filter (fun f => f.date = maxDate fixtures)).map
    (fun f => f.fixture_id)).foldl max 0

/-- The `info_dict` row built by `get_info` (lines 233-243). -/
structure InfoRow where
  date : String
  home_id : Nat
  home_team : String
  away_id : Nat
  away_team : String
  fixture_id : Nat
  home_manager_start : String
  away_manager_start : String
  season : String
deriving DecidableEq

/-- Method `XGBoostModel.get_info`.  A failed `assert` becomes `Except.error`
with the assertion's message; `get_manager` and `fetch_name` are
injected. -/
def get_info (getManager : Nat → String → List ManagerRow)
    (fixtures : List MainFixture) (fetchName : Nat → String)
    (home_id away_id : Nat) (date season : String) :
    Except String InfoRow :=
  let h_manager := getManager home_id date
  let a_manager := getManager away_id date
  if h_manager.length = 0 then Except.error "No data returned for home manager"
  else if a_manager.length = 0 then Except.error "No data returned for away manager"
  else
    Except.ok
      { date := date
        home_id := home_id
        home_team := fetchName home_id
        away_id := away_id
        away_team := fetchName away_id
        -- line 239: the placeholder id is the max fixture id at the
        -- most recent date (the "+1" announced in the comment above it
        -- is never applied)
        fixture_id := maxFixtureAtMaxDate fixtures
        home_manager_start := h_manager.headI.start_date
        away_manager_start := a_manager.headI.start_date
        season := season }

/-! ## `_predict` and `predict` -/

/-- Method `XGBoostModel._predict(X)`: `self.trained_model.predict_proba(X)` if
a trained model is stored, else `None`.  `preprocess` and
`predict_proba` come from the parent class / the xgboost library. -/
def _predict {M : Type u} {ξ : Type v} {π : Type w}
    (preprocess : ξ → ξ) (predict_proba : M → ξ → π)
    (s : ModelState M) (X : ξ) : Option π :=
  let X1 := preprocess X
  match s.trained_model with
  | some m => some (predict_proba m X1)
  | none => none

/-- Python's `round(q, 2)` on an exact rational: round half to even at
two decimal places. -/
def round2 (q : ℚ) : ℚ :=
  let z := q * 100
  let f : ℤ := ⌊z⌋
  let r := z - (f : ℚ)
  if r < 1 / 2 then (f : ℚ) / 100
  else if 1 / 2 < r then ((f + 1 : ℤ) : ℚ) / 100
  else (if f % 2 = 0 then (f : ℚ) else ((f + 1 : ℤ) : ℚ)) / 100

/-- The pseudo-fixture DataFrame returned by `get_info`, as the input
row of `get_data` (it has no `full_time_result` column). -/
def infoToFixtureRow (info : InfoRow) : FixtureRow :=
  { fixture_id := info.fixture_id, full_time_result := none }

/-- Method `XGBoostModel.predict(**kwargs)`: build the pseudo-fixture, run it
through `get_data`, obtain class probabilities from the parent class's
`predict` (injected as `superPredict`, the stored model's
`predict_proba` restricted to the model features), and package the
`H`/`D`/`A` dictionary from class indices 2/1/0 rounded to two decimal
places.  An out-of-range numpy index raises, modelled as an
`"IndexError"` error. -/
def predict {M : Type u} {φ : Type w}
    (getManager : Nat → String → List ManagerRow)
    (fixtures : List MainFixture) (fetchName : Nat → String)
    (mgrF : List FixtureRow → List FixtureRow)
    (pick : List FixtureRow → List FixtureRow)
    (features : FixtureRow → φ)
    (superPredict : List φ → List (List ℚ))
    (s : ModelState M) (home_id away_id : Nat) (date season : String) :
    Except String (List (String × ℚ)) :=
  match get_info getManager fixtures fetchName home_id away_id date season with
  | Except.error e => Except.error e
  | Except.ok info =>
    let X := (get_data mgrF pick features s [infoToFixtureRow info]).1
    let preds := superPredict X
    match preds.get? 0 with
    | none => Except.error "IndexError"
    | some row =>
      match row.get? 2, row.get? 1, row.get? 0 with
      | some hProb, some dProb, some aProb =>
        Except.ok [("H", round2 hProb), ("D", round2 dProb), ("A", round2 aProb)]
      | _, _, _ => Except.error "IndexError"

/-! ## Facts about the model-selection step -/

theorem trainStep_of_not_gt {M : Type u} {ρ : Type v} (s : ModelState M)
    (inp : TrainInput M ρ) (h : ¬ storedScore s < computedScore inp) :
    trainStep s inp = s := by
  unfold trainStep train_model
  by_cases hn : inp.X.length < 10
  · rw [if_pos hn]
  · rw [if_neg hn]
    cases hl : (runFolds inp).getLast? with
    | none => rfl
    | some lf =>
      have hgt : ¬ (balanced_accuracy_score lf.actuals lf.preds
          > (dictGet s.performance "balanced_accuracy_score").getD 0) := by
        unfold storedScore computedScore at h
        rw [hl] at h
        exact h
      simp only [if_neg hgt]

theorem storedScore_trainStep_of_gt {M : Type u} {ρ : Type v} (s : ModelState M)
    (inp : TrainInput M ρ) (lf : FoldResult M ρ)
    (hn : ¬ inp.X.length < 10) (hl : (runFolds inp).getLast? = some lf)
    (hgt : balanced_accuracy_score lf.actuals lf.preds
      > (dictGet s.performance "balanced_accuracy_score").getD 0) :
    storedScore (trainStep s inp) = balanced_accuracy_score lf.actuals lf.preds := by
  unfold trainStep train_model
  rw [if_neg hn, hl]
  simp only [if_pos hgt]
  unfold storedScore
  simp only []
  rw [dictGet_setKey_ne _ "balanced_accuracy_score" "accuracy_score" _ (by decide),
    dictGet_setKey_self]
  rfl

theorem storedScore_le_trainStep {M : Type u} {ρ : Type v} (s : ModelState M)
    (inp : TrainInput M ρ) : storedScore s ≤ storedScore (trainStep s inp) := by
  by_cases h : storedScore s < computedScore inp
  · by_cases hn : inp.X.length < 10
    · unfold trainStep train_model
      rw [if_pos hn]
    · cases hl : (runFolds inp).getLast? with
      | none =>
        unfold trainStep train_model
        rw [if_neg hn, hl]
      | some lf =>
        have hev : computedScore inp = balanced_accuracy_score lf.actuals lf.preds := by
          unfold computedScore
          rw [hl]
        have hgt : balanced_accuracy_score lf.actuals lf.preds
            > (dictGet s.performance "balanced_accuracy_score").getD 0 := by
          rw [← hev]
          exact h
        rw [storedScore_trainStep_of_gt s inp lf hn hl hgt, ← hev]
        exact le_of_lt h
  · rw [trainStep_of_not_gt s inp h]

/-- C2: across any sequence of `train_model` calls, the stored model and
performance dict are overwritten only when the newly computed
primary-metric score strictly exceeds the stored score (`storedScore`
reads `self.performance.get('balanced_accuracy_score', 0)`, so the
baseline is 0 when nothing is stored), and the stored primary-metric
score is non-decreasing along the sequence. -/
theorem train_model_selection_monotone {M : Type u} {ρ : Type v}
    (s : ModelState M) (inp : TrainInput M ρ) (inps : List (TrainInput M ρ)) :
    (((trainStep s inp).trained_model ≠ s.trained_model ∨
        (trainStep s inp).performance ≠ s.performance) →
      storedScore s < computedScore inp)
    ∧ storedScore s ≤ storedScore (List.foldl trainStep s inps) := by
  constructor
  · intro hch
    by_contra hnot
    rw [trainStep_of_not_gt s inp hnot] at hch
    rcases hch with h | h
    · exact h rfl
    · exact h rfl
  · induction inps generalizing s with
    | nil => exact le_refl _
    | cons i rest ih =>
      exact le_trans (storedScore_le_trainStep s i) (ih (trainStep s i))

/-- Concrete state for the C2 witness: a fresh model, nothing stored. -/
def wc2s : ModelState Unit := initState Unit false false "wc2"

/-- Concrete training input for the C2 witness: 10 rows, all labels 0,
an oracle classifier that always predicts 0 (so the last fold scores 1,
which beats the empty-dict baseline 0). -/
def wc2inp : TrainInput Unit Unit :=
  { fit := fun _ _ _ => ()
    predictF := fun _ rows => rows.map (fun _ => 0)
    getProfit := fun _ _ _ => 0
    X := List.replicate 10 ()
    y := List.replicate 10 0 }

unseal Rat.add Rat.mul Rat.inv in
theorem train_model_selection_monotone_witness :
    storedScore wc2s < computedScore wc2inp
    ∧ storedScore wc2s ≤ storedScore (List.foldl trainStep wc2s [wc2inp]) :=
  ⟨(train_model_selection_monotone wc2s wc2inp [wc2inp]).1 (by decide),
   (train_model_selection_monotone wc2s wc2inp [wc2inp]).2⟩

/-- C7: when the newly computed primary-metric score does not strictly
exceed the stored one, a successful `train_model` call leaves both the
stored trained-model artifact and the performance dict untouched. -/
theorem train_model_no_improvement_frame {M : Type u} {ρ : Type v}
    (s : ModelState M) (inp : TrainInput M ρ) (prevLog : List (LoggedRow ρ))
    (s1 : ModelState M) (newLog : List (LoggedRow ρ))
    (hle : computedScore inp ≤ storedScore s)
    (hrun : train_model s inp prevLog = some (s1, newLog)) :
    s1.trained_model = s.trained_model ∧ s1.performance = s.performance := by
  unfold train_model at hrun
  by_cases hn : inp.X.length < 10
  · rw [if_pos hn] at hrun
    exact absurd hrun (by simp)
  · rw [if_neg hn] at hrun
    cases hl : (runFolds inp).getLast? with
    | none =>
      rw [hl] at hrun
      exact absurd hrun (by simp)
    | some lf =>
      rw [hl] at hrun
      have hgt : ¬ (balanced_accuracy_score lf.actuals lf.preds
          > (dictGet s.performance "balanced_accuracy_score").getD 0) := by
        unfold computedScore at hle
        rw [hl] at hle
        exact not_lt_of_le hle
      simp only [if_neg hgt] at hrun
      have hs : s1 = s := by
        have := congrArg (fun o => o.map (fun r : ModelState M × List (LoggedRow ρ) => r.1)) hrun
        simpa using this.symm
      rw [hs]
      exact ⟨rfl, rfl⟩

/-- Concrete state for the C7 witness: stored primary score 1 (the
maximum), so the new score of 1 is not a strict improvement. -/
def wc7s : ModelState Unit :=
  { initState Unit false false "wc7" with
    performance := [("balanced_accuracy_score", 1)] }

/-- Concrete training input for the C7 witness: the oracle classifier is
always right, so the new score equals (and does not exceed) the stored 1. -/
def wc7inp : TrainInput Unit Unit :=
  { fit := fun _ _ _ => ()
    predictF := fun _ rows => rows.map (fun _ => 0)
    getProfit := fun _ _ _ => 0
    X := List.replicate 10 ()
    y := List.replicate 10 0 }

/-- The `historic_predictions` rows the C7 witness run writes. -/
def wc7log : List (LoggedRow Unit) :=
  List.replicate 10 { row := (), pred := 0, actual := 0, model_id := "wc7", profit := 0 }

unseal Rat.add Rat.mul Rat.inv in
theorem train_model_no_improvement_frame_witness :
    wc7s.trained_model = wc7s.trained_model ∧ wc7s.performance = wc7s.performance :=
  train_model_no_improvement_frame wc7s wc7inp [] wc7s wc7log (by decide) (by decide)

/-! ## The score that drives model selection (claim C1)

Lines 179-181 of the source compute
`performance = self.performance_metrics[0](actuals, predictions)` after
the fold loop, where `actuals` and `predictions` are the loop variables
left over from the last fold — not the accumulated `model_predictions`
union.  The concrete run below separates the two quantities. -/

/-- Fresh state for the C1 run (no stored score, so the computed score
1/2 is stored and drives selection). -/
def bugC1s : ModelState Unit := initState Unit false false "bug1"

/-- Concrete training input for the C1 run: 20 rows (10 folds of 2),
labels all 0 except row 19 (label 1); the oracle classifier predicts 1
on rows 18 and 19 and 0 elsewhere.  The union of held-out predictions
gets one class-0 row wrong out of 19 and the class-1 row right
(balanced accuracy 37/38); the last fold alone holds rows 18 and 19
(balanced accuracy 1/2). -/
def bugC1inp : TrainInput Unit Nat :=
  { fit := fun _ _ _ => ()
    predictF := fun _ rows => rows.map (fun j => if 18 ≤ j then 1 else 0)
    getProfit := fun _ _ _ => 0
    X := List.range 20
    y := (List.range 20).map (fun j => if j = 19 then 1 else 0) }

unseal Rat.add Rat.mul Rat.inv in
/-- C1: the score `train_model` stores and selects on equals the
balanced accuracy of the **last** fold's held-out predictions (1/2 in
this run), not the balanced accuracy of the union of all folds'
held-out predictions (37/38 in this run) — refuting the claim that the
union drives model selection. -/
theorem train_model_scores_last_fold_only :
    storedScore (trainStep bugC1s bugC1inp) = computedScore bugC1inp
    ∧ computedScore bugC1inp = 1 / 2
    ∧ balanced_accuracy_score (unionActuals bugC1inp) (unionPreds bugC1inp) = 37 / 38
    ∧ storedScore (trainStep bugC1s bugC1inp)
        ≠ balanced_accuracy_score (unionActuals bugC1inp) (unionPreds bugC1inp) := by
  decide

/-! ## Persistence of the prediction log (claim C3)

Line 196 runs `drop table if exists historic_predictions` before the
(conditional) append, so records persisted by earlier runs or other
models never survive a `train_model` call. -/

/-- C3 counterexample state: a normal (non-test-mode) model. -/
def c3s : ModelState Unit :=
  { initState Unit false false "m3" with
    performance := [("balanced_accuracy_score", 1)] }

/-- C3 counterexample input: any 10-row training set. -/
def c3inp : TrainInput Unit Unit :=
  { fit := fun _ _ _ => ()
    predictF := fun _ rows => rows.map (fun _ => 0)
    getProfit := fun _ _ _ => 0
    X := List.replicate 10 ()
    y := List.replicate 10 0 }

/-- A prediction record persisted by an earlier run of another model. -/
def c3prev : LoggedRow Unit :=
  { row := (), pred := 0, actual := 0, model_id := "older_model", profit := 0 }

/-- The log contents after the C3 counterexample call. -/
def c3newLog : List (LoggedRow Unit) :=
  List.replicate 10 { row := (), pred := 0, actual := 0, model_id := "m3", profit := 0 }

unseal Rat.add Rat.mul Rat.inv in
/-- C3 counterexample: starting from a log holding a record of another
model, `train_model` succeeds but the resulting log no longer contains
that record — the log is not append-only. -/
theorem train_model_log_drops_previous_records :
    train_model c3s c3inp [c3prev] = some (c3s, c3newLog) ∧ c3prev ∉ c3newLog := by
  decide

/-- C3 (amended): a successful `train_model` call leaves the log
holding exactly the current call's predictions tagged with this model's
id and computed profit (or nothing, in test mode without the upload
override), regardless of what the log held before. -/
theorem train_model_log_contains_only_current {M : Type u} {ρ : Type v}
    (s : ModelState M) (inp : TrainInput M ρ) (prevLog : List (LoggedRow ρ))
    (s1 : ModelState M) (newLog : List (LoggedRow ρ))
    (hrun : train_model s inp prevLog = some (s1, newLog)) :
    newLog = (if (!s.test_mode) || s.upload_historic_predictions then
        taggedPredictions s inp
      else [])
    ∧ ∀ r ∈ newLog, r.model_id = s.model_id := by
  have hlog : newLog = (if (!s.test_mode) || s.upload_historic_predictions then
      taggedPredictions s inp
    else []) := by
    unfold train_model at hrun
    by_cases hn : inp.X.length < 10
    · rw [if_pos hn] at hrun
      exact absurd hrun (by simp)
    · rw [if_neg hn] at hrun
      cases hl : (runFolds inp).getLast? with
      | none =>
        rw [hl] at hrun
        exact absurd hrun (by simp)
      | some lf =>
        rw [hl] at hrun
        have hpr := congrArg
          (fun o => o.map (fun r : ModelState M × List (LoggedRow ρ) => r.2)) hrun
        simp only [Option.map] at hpr
        by_cases hc : ((!s.test_mode) || s.upload_historic_predictions) = true
        · rw [if_pos hc]
          rw [if_pos hc, List.nil_append] at hpr
          exact (Option.some_inj.mp hpr).symm
        · rw [if_neg hc]
          rw [if_neg hc] at hpr
          exact (Option.some_inj.mp hpr).symm
  refine ⟨hlog, ?_⟩
  intro r hr
  rw [hlog] at hr
  by_cases hc : ((!s.test_mode) || s.upload_historic_predictions) = true
  · rw [if_pos hc] at hr
    unfold taggedPredictions at hr
    obtain ⟨p, _, hp⟩ := List.mem_map.mp hr
    rw [← hp]
  · rw [if_neg hc] at hr
    exact absurd hr (List.not_mem_nil r)

unseal Rat.add Rat.mul Rat.inv in
/-- Witness for the amended C3 at the concrete counterexample run. -/
theorem train_model_log_contains_only_current_witness :
    c3newLog = (if (!c3s.test_mode) || c3s.upload_historic_predictions then
        taggedPredictions c3s c3inp
      else [])
    ∧ ∀ r ∈ c3newLog, r.model_id = c3s.model_id :=
  train_model_log_contains_only_current c3s c3inp [c3prev] c3s c3newLog (by decide)

/-! ## Exclusion boundaries of the training feature matrix (claim C8) -/

/-- C8: every row of the engineered feature matrix `X` returned by
`get_data` is generated from a fixture whose id lies strictly inside the
exclusion boundaries: above `window_length * 10` and below the
last-game-week boundary 370 (assuming only that `df.sample` returns
rows of its input). -/
theorem get_data_rows_inside_boundaries {M : Type u} {φ : Type w}
    (mgrF : List FixtureRow → List FixtureRow)
    (pick : List FixtureRow → List FixtureRow)
    (features : FixtureRow → φ)
    (s : ModelState M) (df : List FixtureRow)
    (hpick : ∀ l r, r ∈ pick l → r ∈ l)
    (x : φ) (hx : x ∈ (get_data mgrF pick features s df).1) :
    ∃ r : FixtureRow, x = features r
      ∧ s.window_length * 10 < r.fixture_id ∧ r.fixture_id < 370 := by
  unfold get_data at hx
  simp only [List.mem_map] at hx
  obtain ⟨r, hr, hfx⟩ := hx
  have hr2 : r ∈ (mgrF df).filter (fun r =>
      decide (s.window_length * 10 < r.fixture_id) && decide (r.fixture_id < 370)) := by
    by_cases hc : (s.test_mode && decide
        (100 < ((mgrF df).filter (fun r =>
          decide (s.window_length * 10 < r.fixture_id)
            && decide (r.fixture_id < 370))).length)) = true
    · rw [if_pos hc] at hr
      exact hpick _ r hr
    · rw [if_neg hc] at hr
      exact hr
  have hcond := List.of_mem_filter hr2
  simp only [Bool.and_eq_true, decide_eq_true_eq] at hcond
  exact ⟨r, hfx.symm, hcond.1, hcond.2⟩

/-- Raw fixtures for the C8 witness: one row inside the boundaries, one
in the first eight game weeks, one in the last game week. -/
def wc8df : List FixtureRow :=
  [{ fixture_id := 100, full_time_result := some 2 },
   { fixture_id := 80, full_time_result := some 0 },
   { fixture_id := 370, full_time_result := some 1 }]

theorem get_data_rows_inside_boundaries_witness :
    ∃ r : FixtureRow, (100 : Nat) = r.fixture_id
      ∧ (initState Unit false false "wc8").window_length * 10 < r.fixture_id
      ∧ r.fixture_id < 370 :=
  get_data_rows_inside_boundaries id id (fun r => r.fixture_id)
    (initState Unit false false "wc8") wc8df (fun _ _ h => h) 100 (by decide)

/-! ## Prediction before a model is trained (claim C9) -/

/-- C9: when no trained model is stored, `_predict` returns the explicit
unavailable signal (`None`), never a probability value. -/
theorem predict_internal_unavailable_when_untrained {M : Type u} {ξ : Type v}
    {π : Type w} (preprocess : ξ → ξ) (predict_proba : M → ξ → π)
    (s : ModelState M) (X : ξ) (h : s.trained_model = none) :
    _predict preprocess predict_proba s X = none
    ∧ ∀ p : π, _predict preprocess predict_proba s X ≠ some p := by
  unfold _predict
  rw [h]
  exact ⟨rfl, fun p hp => Option.noConfusion hp⟩

theorem predict_internal_unavailable_when_untrained_witness :
    _predict id (fun (_m : Unit) (_x : Unit) => [(1 : ℚ)])
      (initState Unit false false "wc9") () = none
    ∧ ∀ p : List ℚ, _predict id (fun (_m : Unit) (_x : Unit) => [(1 : ℚ)])
      (initState Unit false false "wc9") () ≠ some p :=
  predict_internal_unavailable_when_untrained id
    (fun _ _ => [(1 : ℚ)]) (initState Unit false false "wc9") () rfl

/-! ## Missing-manager errors in prediction requests (claim C4) -/

/-- C4: a prediction request for a side with no manager-of-record row at
the given date fails with the descriptive assertion message naming that
side (home checked first), and no prediction is produced. -/
theorem predict_missing_manager_error {M : Type u} {φ : Type w}
    (getManager : Nat → String → List ManagerRow)
    (fixtures : List MainFixture) (fetchName : Nat → String)
    (mgrF : List FixtureRow → List FixtureRow)
    (pick : List FixtureRow → List FixtureRow)
    (features : FixtureRow → φ)
    (superPredict : List φ → List (List ℚ))
    (s : ModelState M) (home_id away_id : Nat) (date season : String) :
    (getManager home_id date = [] →
      predict getManager fixtures fetchName mgrF pick features superPredict
          s home_id away_id date season
        = Except.error "No data returned for home manager")
    ∧ (getManager home_id date ≠ [] → getManager away_id date = [] →
      predict getManager fixtures fetchName mgrF pick features superPredict
          s home_id away_id date season
        = Except.error "No data returned for away manager") := by
  constructor
  · intro hh
    unfold predict get_info
    rw [hh]
    rfl
  · intro hh ha
    unfold predict get_info
    rw [ha]
    have hlen : ¬ (getManager home_id date).length = 0 := by
      intro h0
      exact hh (List.length_eq_zero.mp h0)
    rw [if_neg hlen]
    rfl

/-- Manager oracle for the C4 witness: team 1 has a manager of record,
team 2 has none. -/
def wc4managers (team_id : Nat) (_date : String) : List ManagerRow :=
  if team_id = 1 then [{ start_date := "2019-07-01" }] else []

theorem predict_missing_manager_error_witness :
    predict wc4managers [] (fun _ => "team") id id (fun r => r.fixture_id)
        (fun _ => [[1, 0, 0]]) (initState Unit false false "wc4") 2 1
        "2020-05-01" "19/20"
      = Except.error "No data returned for home manager"
    ∧ predict wc4managers [] (fun _ => "team") id id (fun r => r.fixture_id)
        (fun _ => [[1, 0, 0]]) (initState Unit false false "wc4") 1 2
        "2020-05-01" "19/20"
      = Except.error "No data returned for away manager" :=
  ⟨(predict_missing_manager_error wc4managers [] (fun _ => "team") id id
      (fun r => r.fixture_id) (fun _ => [[1, 0, 0]])
      (initState Unit false false "wc4") 2 1 "2020-05-01" "19/20").1 rfl,
   (predict_missing_manager_error wc4managers [] (fun _ => "team") id id
      (fun r => r.fixture_id) (fun _ => [[1, 0, 0]])
      (initState Unit false false "wc4") 1 2 "2020-05-01" "19/20").2
     (by decide) rfl⟩

/-! ## The placeholder fixture id (claim C5)

The comment above line 228 of the source announces "set the fixture_id
to be 1 higher than the max fixture_id", but line 239 stores the
queried maximum itself: `"fixture_id": max_fixture`. -/

/-- Manager oracle for the C5 run (both sides have managers, so the
asserts pass). -/
def wc5managers (_team_id : Nat) (_date : String) : List ManagerRow :=
  [{ start_date := "2019-07-01" }]

/-- Historical fixture store for the C5 run: the most recent date 3
holds fixture ids 5 and 7, an older date holds fixture id 9. -/
def wc5fixtures : List MainFixture :=
  [{ date := 3, fixture_id := 7 },
   { date := 3, fixture_id := 5 },
   { date := 2, fixture_id := 9 }]

/-- C5: at this concrete store, the pseudo-fixture id `get_info` assigns
equals the maximum existing fixture id for the most recent date (7), not
one greater than it (8) — refuting the "one greater" claim. -/
theorem get_info_placeholder_id_not_incremented :
    (get_info wc5managers wc5fixtures (fun _ => "team") 1 2 "2020-05-01"
        "19/20").toOption.map (fun i => i.fixture_id)
      = some (maxFixtureAtMaxDate wc5fixtures)
    ∧ maxFixtureAtMaxDate wc5fixtures = 7
    ∧ (get_info wc5managers wc5fixtures (fun _ => "team") 1 2 "2020-05-01"
        "19/20").toOption.map (fun i => i.fixture_id)
      ≠ some (maxFixtureAtMaxDate wc5fixtures + 1) := by
  decide

/-! ## The `H`/`D`/`A` output dictionary (claim C6) -/

/-- C6: on a valid request (the managers resolve, and the classifier
returns a first probability row with at least three entries), `predict`
returns exactly the keys `H`, `D`, `A`, holding the class probabilities
of classifier class indices 2, 1 and 0 respectively, each rounded to two
decimal places. -/
theorem predict_output_keys_and_class_order {M : Type u} {φ : Type w}
    (getManager : Nat → String → List ManagerRow)
    (fixtures : List MainFixture) (fetchName : Nat → String)
    (mgrF : List FixtureRow → List FixtureRow)
    (pick : List FixtureRow → List FixtureRow)
    (features : FixtureRow → φ)
    (superPredict : List φ → List (List ℚ))
    (s : ModelState M) (home_id away_id : Nat) (date season : String)
    (info : InfoRow)
    (hinfo : get_info getManager fixtures fetchName home_id away_id date season
      = Except.ok info)
    (row : List ℚ) (aProb dProb hProb : ℚ)
    (h0 : (superPredict
        ((get_data mgrF pick features s [infoToFixtureRow info]).1)).get? 0
      = some row)
    (hA : row.get? 0 = some aProb) (hD : row.get? 1 = some dProb)
    (hH : row.get? 2 = some hProb) :
    predict getManager fixtures fetchName mgrF pick features superPredict
        s home_id away_id date season
      = Except.ok [("H", round2 hProb), ("D", round2 dProb), ("A", round2 aProb)] := by
  unfold predict
  rw [hinfo]
  simp only [h0, hA, hD, hH]

/-- Classifier oracle for the C6 witness: probabilities 0.2 / 0.3 / 0.5
for classes 0 (away win), 1 (draw), 2 (home win). -/
def wc6superPredict (_X : List Nat) : List (List ℚ) :=
  [[2 / 10, 3 / 10, 5 / 10]]

/-- The pseudo-fixture `get_info` builds for the C6 witness request. -/
def wc6info : InfoRow :=
  { date := "2020-05-01"
    home_id := 1
    home_team := "team"
    away_id := 2
    away_team := "team"
    fixture_id := 7
    home_manager_start := "2019-07-01"
    away_manager_start := "2019-07-01"
    season := "19/20" }

theorem predict_output_keys_and_class_order_witness :
    predict wc5managers wc5fixtures (fun _ => "team") id id
        (fun r => r.fixture_id) wc6superPredict
        (initState Unit false false "wc6") 1 2 "2020-05-01" "19/20"
      = Except.ok [("H", round2 (5 / 10)), ("D", round2 (3 / 10)),
          ("A", round2 (2 / 10))] :=
  predict_output_keys_and_class_order wc5managers wc5fixtures (fun _ => "team")
    id id (fun r => r.fixture_id) wc6superPredict
    (initState Unit false false "wc6") 1 2 "2020-05-01" "19/20" wc6info rfl
    [2 / 10, 3 / 10, 5 / 10] (2 / 10) (3 / 10) (5 / 10) rfl rfl rfl rfl

/-! ## Fold classifiers ignore configured and tuned parameters (claim C10) -/

theorem runFolds_fit_agree {M : Type u} {ρ : Type v} (inp : TrainInput M ρ)
    (fit2 : List (String × Nat) → List ρ → List Nat → M)
    (hfit : inp.fit [] = fit2 []) :
    runFolds { inp with fit := fit2 } = runFolds inp := by
  unfold runFolds
  simp only []
  apply List.map_congr_left
  intro i _
  rw [← hfit]

/-- C10: the fold classifiers are constructed with the empty argument
list (`xgb.XGBClassifier()`, i.e. library defaults): the observable
result of `train_model` (stored model, performance dict, persisted
predictions) does not change when the instance's configured `params` and
`param_grid` take arbitrary values (so hyper-parameter tuning cannot
influence it either), nor when the classifier library is swapped for any
other that agrees on the default-constructed classifier. -/
theorem train_model_ignores_params {M : Type u} {ρ : Type v}
    (s : ModelState M) (p p2 : List (String × Nat))
    (g g2 : List (String × List Nat)) (inp : TrainInput M ρ)
    (fit2 : List (String × Nat) → List ρ → List Nat → M)
    (hfit : inp.fit [] = fit2 [])
    (lg lg2 : List (LoggedRow ρ)) :
    (train_model { s with params := p, param_grid := g } inp lg).map
        (fun r => (r.1.trained_model, r.1.performance, r.2))
      = (train_model { s with params := p2, param_grid := g2 }
          { inp with fit := fit2 } lg2).map
        (fun r => (r.1.trained_model, r.1.performance, r.2)) := by
  have hr : runFolds { inp with fit := fit2 } = runFolds inp :=
    runFolds_fit_agree inp fit2 hfit
  unfold train_model
  rw [hr]
  simp only [taggedPredictions, modelPredictions, hr]
  by_cases hn : inp.X.length < 10
  · rw [if_pos hn, if_pos hn]
  · rw [if_neg hn, if_neg hn]
    cases hl : (runFolds inp).getLast? with
    | none => rfl
    | some lf =>
      simp only []
      by_cases hgt : balanced_accuracy_score lf.actuals lf.preds
          > (dictGet s.performance "balanced_accuracy_score").getD 0
      · rw [if_pos hgt, if_pos hgt]
        rfl
      · rw [if_neg hgt, if_neg hgt]
        rfl

/-- Tuned parameter values for the C10 witness (as `optimise_hyperparams`
might leave them). -/
def wc10params : List (String × Nat) := [("max_depth", 6), ("n_estimators", 200)]

/-- The C10 witness state with untouched initial parameters. -/
def wc10s1 : ModelState Unit :=
  { wc2s with params := wc2s.params, param_grid := wc2s.param_grid }

/-- The C10 witness state after a tuning step rewrote the parameters. -/
def wc10s2 : ModelState Unit :=
  { wc2s with params := wc10params, param_grid := [] }

theorem train_model_ignores_params_witness :
    (train_model wc10s1 wc2inp []).map
        (fun r => (r.1.trained_model, r.1.performance, r.2))
      = (train_model wc10s2 { wc2inp with fit := fun _ _ _ => () } []).map
        (fun r => (r.1.trained_model, r.1.performance, r.2)) :=
  train_model_ignores_params wc2s wc2s.params wc10params wc2s.param_grid []
    wc2inp (fun _ _ _ => ()) rfl [] []

end FootballTrading
